import Mathlib

/-!
# Verification of the Arduino example sketches

A shallow embedding of the three sketches whose behaviour the specification
describes, together with proofs (or refutations) of the spec's testable
properties.

* `VUMeter` embeds the microphone VU-meter sketch (`loop` of the NeoPixel
  sound-level sketch): the running min/max update, the 40 ms sampling-window
  close with its unsigned `peakToPeak` subtraction, the fader raise, and the
  fade-out branch.  C/C++ `unsigned int` arithmetic is modelled as `Nat`
  reduced `% 2 ^ 32`; the `int` fader is an `Int`, and the implicit
  conversions at the `int`/`unsigned int` boundary are made explicit
  (`intToUInt32`, `toInt32`).  `millis()` is modelled as one timestamp per
  loop iteration (the loop body is far faster than 1 ms); time wraparound of
  the 32-bit millisecond counter (49.7 days) is not modelled.
* `BallBounce` embeds the ball-update part of the bouncing-ball sketch's
  `loop`: position integration and the per-axis reflection test.
* `ArduinoString` models the Arduino `String` member functions the serial
  sketches use (`indexOf`, `substring`, `toInt` via C `atol`).
* `Paint` embeds `checkAndParseSerial` and `readBrushButtons` of the
  shape-drawing sketch; the C enums are modelled by their numeric values,
  since the serial path casts an unchecked `int` into them.
* `LedValue` embeds the receive-and-clamp computation of the serial LED
  sketch.
-/

set_option linter.unusedVariables false

namespace Arduino

/-- Modulus of C/C++ `unsigned int` / `unsigned long` on the 32-bit targets
these sketches name (NRF52840, SAMD). -/
def UINT32_MOD : Nat := 2 ^ 32

/-- Conversion of a C `int` value to `unsigned int`, as performed implicitly
by the usual arithmetic conversions in `int < unsigned int` comparisons. -/
def intToUInt32 (i : Int) : Nat := (i % (UINT32_MOD : Int)).toNat

/-- Conversion of an `unsigned int` value to `int` (two's-complement wrap, the
behaviour of the compilers these sketches target). -/
def toInt32 (n : Nat) : Int :=
  if n % UINT32_MOD < 2 ^ 31 then ((n % UINT32_MOD : Nat) : Int)
  else ((n % UINT32_MOD : Nat) : Int) - (UINT32_MOD : Int)

/-- `unsigned int` subtraction `a - b` with wraparound. -/
def usub32 (a b : Nat) : Nat :=
  ((a % UINT32_MOD) + UINT32_MOD - (b % UINT32_MOD)) % UINT32_MOD

namespace VUMeter

/-- `MAX_ANALOG_INPUT` of the VU-meter sketch (sentinel for the running min). -/
def MAX_ANALOG_INPUT : Nat := 929

/-- `MIC_SAMPLE_WINDOW_MS`: width of one sampling window. -/
def MIC_SAMPLE_WINDOW_MS : Nat := 40

/-- `FADE_TIME_THRESHOLD_MS`: the fade-out interval. -/
def FADE_TIME_THRESHOLD_MS : Nat := 10

/-- `_peakToPeakFadeStep`: the fade-out decrement (1). -/
def peakToPeakFadeStep : Int := 1

/-- The mutable globals of the VU-meter sketch:
`_startSampleTimeMs`, `_signalMax`, `_signalMin`, `_peakToPeakFader`,
`_startFadeTimeMs`. -/
structure State where
  startSampleTimeMs : Nat
  signalMax : Nat
  signalMin : Nat
  peakToPeakFader : Int
  startFadeTimeMs : Nat
  deriving Repr, DecidableEq

/-- The min/max update at the top of `loop` (the `if`/`else if` on
`micLevel`). -/
def observeMic (st : State) (micLevel : Nat) : State :=
  if micLevel > st.signalMax then { st with signalMax := micLevel }
  else if micLevel < st.signalMin then { st with signalMin := micLevel }
  else st

/-- `unsigned int peakToPeak = _signalMax - _signalMin;` -/
def micPeakToPeak (st : State) : Nat := usub32 st.signalMax st.signalMin

/-- The sampling-window close in `loop`: when more than
`MIC_SAMPLE_WINDOW_MS` ms have passed since `_startSampleTimeMs`, compute
`peakToPeak`, raise the fader if the (unsigned-compared) peak exceeds it,
reset min/max to their sentinels and restart the window timer. -/
def closeWindowIfElapsed (st : State) (now : Nat) : State :=
  if now - st.startSampleTimeMs > MIC_SAMPLE_WINDOW_MS then
    let peakToPeak := micPeakToPeak st
    let fader :=
      if intToUInt32 st.peakToPeakFader < peakToPeak then toInt32 peakToPeak
      else st.peakToPeakFader
    { st with
        peakToPeakFader := fader,
        signalMax := 0,
        signalMin := MAX_ANALOG_INPUT,
        startSampleTimeMs := now }
  else st

/-- The fade-out branch at the bottom of `loop`.  NOTE: exactly as in the
source, the elapsed-time test reads `_startSampleTimeMs`, not
`_startFadeTimeMs`; `_startFadeTimeMs` is only ever written. -/
def fadeIfElapsed (st : State) (now : Nat) : State :=
  if now - st.startSampleTimeMs > FADE_TIME_THRESHOLD_MS then
    let fader :=
      if st.peakToPeakFader > 0 then st.peakToPeakFader - peakToPeakFadeStep
      else st.peakToPeakFader
    { st with peakToPeakFader := fader, startFadeTimeMs := now }
  else st

/-- One iteration of `loop`, with the NeoPixel output calls (pure
presentation) elided: read a sample, update min/max, close the window if
elapsed, then run the fade-out branch. -/
def loopStep (st : State) (now micLevel : Nat) : State :=
  fadeIfElapsed (closeWindowIfElapsed (observeMic st micLevel) now) now

/-- The state established by `setup()`, taking its `millis()` call as time 0:
min/max at their sentinels, fader 0, both timers started. -/
def initState : State :=
  { startSampleTimeMs := 0
    signalMax := 0
    signalMin := MAX_ANALOG_INPUT
    peakToPeakFader := 0
    startFadeTimeMs := 0 }

/-- Whether the fader-raise branch fires during `loopStep st now micLevel`
(the window closes and the unsigned comparison `_peakToPeakFader <
peakToPeak` holds). -/
def faderRaised (st : State) (now micLevel : Nat) : Bool :=
  decide (now - st.startSampleTimeMs > MIC_SAMPLE_WINDOW_MS ∧
    intToUInt32 st.peakToPeakFader < micPeakToPeak (observeMic st micLevel))

/-- Run a sequence of loop iterations, each given its timestamp and its
microphone sample. -/
def run (st : State) : List (Nat × Nat) → State
  | [] => st
  | (now, mic) :: rest => run (loopStep st now mic) rest

/-- Side conditions on an input sequence: every sample is within the 10-bit
ADC range, and whenever a window closes its running min has caught up with
its running max (no unsigned underflow in `peakToPeak`). -/
def goodInputs : State → List (Nat × Nat) → Prop
  | _, [] => True
  | st, (now, mic) :: rest =>
      mic ≤ 1023 ∧
      (now - st.startSampleTimeMs > MIC_SAMPLE_WINDOW_MS →
        (observeMic st mic).signalMin ≤ (observeMic st mic).signalMax) ∧
      goodInputs (loopStep st now mic) rest

end VUMeter

namespace BallBounce

/-- `SCREEN_WIDTH` (`display.width()`). -/
def SCREEN_WIDTH : Int := 128

/-- `SCREEN_HEIGHT` (`display.height()`). -/
def SCREEN_HEIGHT : Int := 64

/-- `_ballRadius`. -/
def ballRadius : Int := 5

/-- The ball globals of the bounce sketch: `_xBall`, `_yBall`, `_xSpeed`,
`_ySpeed`. -/
structure Ball where
  xBall : Int
  yBall : Int
  xSpeed : Int
  ySpeed : Int
  deriving Repr, DecidableEq

/-- The X-axis collision test of `loop`:
`_xBall - _ballRadius <= 0 || _xBall + _ballRadius >= display.width()`. -/
def xCollision (x : Int) : Prop :=
  x - ballRadius ≤ 0 ∨ x + ballRadius ≥ SCREEN_WIDTH

instance (x : Int) : Decidable (xCollision x) := by
  unfold xCollision; exact inferInstance

/-- The Y-axis collision test of `loop`. -/
def yCollision (y : Int) : Prop :=
  y - ballRadius ≤ 0 ∨ y + ballRadius ≥ SCREEN_HEIGHT

instance (y : Int) : Decidable (yCollision y) := by
  unfold yCollision; exact inferInstance

/-- The ball update of `loop`: integrate position by velocity, then negate a
velocity component whenever the corresponding axis test fires
(`_xSpeed = _xSpeed * -1`). -/
def ballStep (b : Ball) : Ball :=
  let x := b.xBall + b.xSpeed
  let y := b.yBall + b.ySpeed
  { xBall := x
    yBall := y
    xSpeed := if xCollision x then b.xSpeed * (-1) else b.xSpeed
    ySpeed := if yCollision y then b.ySpeed * (-1) else b.ySpeed }

/-- `n` consecutive frames of the ball update. -/
def ballIterate (b : Ball) : Nat → Ball
  | 0 => b
  | n + 1 => ballIterate (ballStep b) n

end BallBounce

namespace ArduinoString

/-- C `isspace`, as used by `atol` on the characters an Arduino `String` can
hold. -/
def isSpaceChar (c : Char) : Bool :=
  c == ' ' || c == '\t' || c == '\n' || c == '\x0b' || c == '\x0c' || c == '\r'

/-- The digit-accumulation loop of C `atol`. -/
def digitsAcc : List Char → Nat → Nat
  | [], acc => acc
  | c :: rest, acc =>
      if c.isDigit then digitsAcc rest (acc * 10 + (c.toNat - 48)) else acc

/-- C `atol`, the implementation behind Arduino `String::toInt()`: skip
leading whitespace, read an optional sign, then accumulate digits until the
first non-digit (0 if there are none).  The sketches' inputs are far below
`long` range, so overflow truncation is not modelled. -/
def atol (s : List Char) : Int :=
  match s.dropWhile isSpaceChar with
  | '-' :: rest => -(digitsAcc rest 0 : Int)
  | '+' :: rest => (digitsAcc rest 0 : Int)
  | s1 => (digitsAcc s1 0 : Int)

/-- Arduino `String::indexOf(ch)`: index of the first occurrence, `-1` if
absent. -/
def indexOf (s : List Char) (c : Char) : Int :=
  match s with
  | [] => -1
  | a :: rest =>
      if a = c then 0
      else
        let r := indexOf rest c
        if r = -1 then -1 else r + 1

/-- Arduino `String::substring(left, right)` for the in-range indices the
paint sketch uses (`0 ≤ left ≤ right ≤ length`): the characters of
`[left, right)`. -/
def substring (s : List Char) (left right : Int) : List Char :=
  (s.drop left.toNat).take (right - left).toNat

end ArduinoString

namespace Paint

/-- `enum BrushType` value `CIRCLE`. -/
def CIRCLE : Int := 0

/-- `enum BrushType` value `SQUARE`. -/
def SQUARE : Int := 1

/-- `enum BrushType` value `TRIANGLE`. -/
def TRIANGLE : Int := 2

/-- `enum BrushType` value `NUM_BRUSH_TYPES`. -/
def NUM_BRUSH_TYPES : Int := 3

/-- `enum BrushFillMode` value `FILL`. -/
def FILL : Int := 0

/-- `enum BrushFillMode` value `OUTLINE`. -/
def OUTLINE : Int := 1

/-- `enum BrushFillMode` value `NUM_FILL_MODES`. -/
def NUM_FILL_MODES : Int := 2

/-- Digital pin level `LOW`. -/
def LOW : Int := 0

/-- Digital pin level `HIGH`. -/
def HIGH : Int := 1

/-- The brush globals of the paint sketch: `_curBrushType` and
`_curBrushFillMode`.  Modelled as `Int` because `checkAndParseSerial` casts
an unchecked parsed `int` into the enums. -/
structure State where
  curBrushType : Int
  curBrushFillMode : Int
  deriving Repr, DecidableEq

/-- The debounce globals `_lastShapeSelectionButtonVal` and
`_lastDrawModeButtonVal`. -/
structure ButtonState where
  lastShapeSelectionButtonVal : Int
  lastDrawModeButtonVal : Int
  deriving Repr, DecidableEq

/-- `checkAndParseSerial`, applied to one received line: if the line contains
a comma, `toInt` the part before it into `_curBrushType` and the part after
it into `_curBrushFillMode`; otherwise leave both unchanged. -/
def checkAndParseSerial (st : State) (rcvdSerialData : List Char) : State :=
  let endIndex := ArduinoString.indexOf rcvdSerialData ','
  if endIndex ≠ -1 then
    let strBrushType := ArduinoString.substring rcvdSerialData 0 endIndex
    let brushType := ArduinoString.atol strBrushType
    let startIndex := endIndex + 1
    let strBrushFillMode :=
      ArduinoString.substring rcvdSerialData startIndex
        (rcvdSerialData.length : Int)
    let brushFillMode := ArduinoString.atol strBrushFillMode
    { curBrushType := brushType, curBrushFillMode := brushFillMode }
  else st

/-- `readBrushButtons`, applied to one reading of the two (active-LOW)
buttons: on a fresh press, advance the brush type (wrapping to `CIRCLE` at
`NUM_BRUSH_TYPES`) resp. the fill mode (wrapping to `FILL` at
`NUM_FILL_MODES`), and record the readings for edge detection. -/
def readBrushButtons (st : State) (btn : ButtonState)
    (shapeSelectionButtonVal shapeDrawModeButtonVal : Int) :
    State × ButtonState :=
  let brush :=
    if shapeSelectionButtonVal = LOW ∧
        shapeSelectionButtonVal ≠ btn.lastShapeSelectionButtonVal then
      let b := st.curBrushType + 1
      if b ≥ NUM_BRUSH_TYPES then CIRCLE else b
    else st.curBrushType
  let fill :=
    if shapeDrawModeButtonVal = LOW ∧
        shapeDrawModeButtonVal ≠ btn.lastDrawModeButtonVal then
      let f := st.curBrushFillMode + 1
      if f ≥ NUM_FILL_MODES then FILL else f
    else st.curBrushFillMode
  ({ curBrushType := brush, curBrushFillMode := fill },
   { lastShapeSelectionButtonVal := shapeSelectionButtonVal,
     lastDrawModeButtonVal := shapeDrawModeButtonVal })

end Paint

namespace LedValue

/-- The Arduino `constrain` macro: `amt < low ? low : (amt > high ? high : amt)`. -/
def constrain (amt low high : Int) : Int :=
  if amt < low then low else if amt > high then high else amt

/-- The value the LED sketch's `loop` writes with `analogWrite` for one
received line: `toInt` the line, then `constrain` it to `[0, 255]`. -/
def ledValueOf (rcvdSerialData : List Char) : Int :=
  constrain (ArduinoString.atol rcvdSerialData) 0 255

end LedValue

/-! ## Helper lemmas -/

/-- Unsigned subtraction computes the ordinary difference when no underflow
occurs. -/
theorem usub32_of_le (a b : Nat) (hba : b ≤ a) (ha : a < UINT32_MOD) :
    usub32 a b = a - b := by
  unfold usub32
  rw [Nat.mod_eq_of_lt ha, Nat.mod_eq_of_lt (lt_of_le_of_lt hba ha)]
  have h : a + UINT32_MOD - b = (a - b) + UINT32_MOD := by omega
  rw [h, Nat.add_mod_right, Nat.mod_eq_of_lt (by omega)]

/-- Converting a small unsigned value to `int` is the identity. -/
theorem toInt32_of_lt (n : Nat) (h : n < 2 ^ 31) : toInt32 n = (n : Int) := by
  unfold toInt32
  have hm : n % UINT32_MOD = n := Nat.mod_eq_of_lt (by unfold UINT32_MOD; omega)
  rw [hm, if_pos h]

/-- The min/max update leaves the window timer alone. -/
theorem observeMic_startSampleTimeMs (st : VUMeter.State) (mic : Nat) :
    (VUMeter.observeMic st mic).startSampleTimeMs = st.startSampleTimeMs := by
  unfold VUMeter.observeMic
  split
  · rfl
  · split <;> rfl

/-- The min/max update leaves the fader alone. -/
theorem observeMic_peakToPeakFader (st : VUMeter.State) (mic : Nat) :
    (VUMeter.observeMic st mic).peakToPeakFader = st.peakToPeakFader := by
  unfold VUMeter.observeMic
  split
  · rfl
  · split <;> rfl

/-- The running max stays within the ADC range when the sample does. -/
theorem observeMic_signalMax_le (st : VUMeter.State) (mic : Nat)
    (hmax : st.signalMax ≤ 1023) (hmic : mic ≤ 1023) :
    (VUMeter.observeMic st mic).signalMax ≤ 1023 := by
  unfold VUMeter.observeMic
  split
  · exact hmic
  · split <;> exact hmax

/-- `indexOf` returns `-1` exactly on strings not containing the character. -/
theorem indexOf_eq_neg_one (s : List Char) (c : Char) (h : c ∉ s) :
    ArduinoString.indexOf s c = -1 := by
  induction s with
  | nil => rfl
  | cons a rest ih =>
      simp only [List.mem_cons, not_or] at h
      unfold ArduinoString.indexOf
      rw [if_neg (fun hh => h.1 hh.symm), ih h.2, if_pos rfl]

/-- One ball frame negates the X speed exactly when the X test fires, so its
magnitude never changes. -/
theorem ballStep_xSpeed_natAbs (b : BallBounce.Ball) :
    (BallBounce.ballStep b).xSpeed.natAbs = b.xSpeed.natAbs := by
  have h : (BallBounce.ballStep b).xSpeed =
      if BallBounce.xCollision (b.xBall + b.xSpeed) then b.xSpeed * (-1)
      else b.xSpeed := rfl
  rw [h]
  split
  · rw [mul_neg_one, Int.natAbs_neg]
  · rfl

/-- One ball frame preserves the Y speed magnitude. -/
theorem ballStep_ySpeed_natAbs (b : BallBounce.Ball) :
    (BallBounce.ballStep b).ySpeed.natAbs = b.ySpeed.natAbs := by
  have h : (BallBounce.ballStep b).ySpeed =
      if BallBounce.yCollision (b.yBall + b.ySpeed) then b.ySpeed * (-1)
      else b.ySpeed := rfl
  rw [h]
  split
  · rw [mul_neg_one, Int.natAbs_neg]
  · rfl

/-- The min/max update preserves "once the min left its sentinel, it is at
most the max". -/
theorem observeMic_min_le_max (st : VUMeter.State) (s : Nat)
    (h : st.signalMin < VUMeter.MAX_ANALOG_INPUT →
      st.signalMin ≤ st.signalMax) :
    (VUMeter.observeMic st s).signalMin < VUMeter.MAX_ANALOG_INPUT →
      (VUMeter.observeMic st s).signalMin ≤
        (VUMeter.observeMic st s).signalMax := by
  unfold VUMeter.observeMic
  split
  · rename_i hgt
    intro hlt
    exact le_trans (h hlt) (le_of_lt hgt)
  · split
    · rename_i hng _
      intro _
      exact Nat.le_of_not_lt hng
    · exact h

/-- Folding the min/max update over any sample list preserves "once the min
left its sentinel, it is at most the max". -/
theorem foldl_observeMic_min_le_max (samples : List Nat) :
    ∀ st : VUMeter.State,
      (st.signalMin < VUMeter.MAX_ANALOG_INPUT →
        st.signalMin ≤ st.signalMax) →
      ((List.foldl VUMeter.observeMic st samples).signalMin <
          VUMeter.MAX_ANALOG_INPUT →
        (List.foldl VUMeter.observeMic st samples).signalMin ≤
          (List.foldl VUMeter.observeMic st samples).signalMax) := by
  induction samples with
  | nil => intro st h; exact h
  | cons s rest ih => intro st h; exact ih _ (observeMic_min_le_max st s h)

/-- The window close keeps the fader non-negative, provided the running min
is below the running max whenever the window actually closes (so the unsigned
`peakToPeak` subtraction does not underflow). -/
theorem closeWindow_fader_nonneg (st : VUMeter.State) (now : Nat)
    (hf : 0 ≤ st.peakToPeakFader) (hmax : st.signalMax ≤ 1023)
    (hmm : now - st.startSampleTimeMs > VUMeter.MIC_SAMPLE_WINDOW_MS →
      st.signalMin ≤ st.signalMax) :
    0 ≤ (VUMeter.closeWindowIfElapsed st now).peakToPeakFader := by
  unfold VUMeter.closeWindowIfElapsed
  split
  · rename_i hc
    have h := hmm hc
    show 0 ≤ (if intToUInt32 st.peakToPeakFader < VUMeter.micPeakToPeak st
      then toInt32 (VUMeter.micPeakToPeak st) else st.peakToPeakFader)
    split
    · have hpk : VUMeter.micPeakToPeak st = st.signalMax - st.signalMin := by
        unfold VUMeter.micPeakToPeak
        exact usub32_of_le _ _ h
          (lt_of_le_of_lt hmax (by unfold UINT32_MOD; norm_num))
      rw [hpk, toInt32_of_lt _
        (lt_of_le_of_lt (le_trans (Nat.sub_le _ _) hmax) (by norm_num))]
      exact Int.natCast_nonneg _
    · exact hf
  · exact hf

/-- When the raise comparison fails, the window close leaves the fader
alone. -/
theorem closeWindow_fader_of_not_lt (st : VUMeter.State) (now : Nat)
    (h : ¬ intToUInt32 st.peakToPeakFader < VUMeter.micPeakToPeak st) :
    (VUMeter.closeWindowIfElapsed st now).peakToPeakFader =
      st.peakToPeakFader := by
  unfold VUMeter.closeWindowIfElapsed
  split
  · show (if intToUInt32 st.peakToPeakFader < VUMeter.micPeakToPeak st
      then toInt32 (VUMeter.micPeakToPeak st) else st.peakToPeakFader) =
        st.peakToPeakFader
    rw [if_neg h]
  · rfl

/-- Before the window elapses, the close branch is the identity. -/
theorem closeWindow_of_not_elapsed (st : VUMeter.State) (now : Nat)
    (h : ¬ now - st.startSampleTimeMs > VUMeter.MIC_SAMPLE_WINDOW_MS) :
    VUMeter.closeWindowIfElapsed st now = st := by
  unfold VUMeter.closeWindowIfElapsed
  rw [if_neg h]

/-- The fade-out branch keeps the fader non-negative: it only decrements a
strictly positive fader, and by exactly one step. -/
theorem fadeIfElapsed_fader_nonneg (st : VUMeter.State) (now : Nat)
    (hf : 0 ≤ st.peakToPeakFader) :
    0 ≤ (VUMeter.fadeIfElapsed st now).peakToPeakFader := by
  unfold VUMeter.fadeIfElapsed
  split
  · show 0 ≤ (if st.peakToPeakFader > 0
      then st.peakToPeakFader - VUMeter.peakToPeakFadeStep
      else st.peakToPeakFader)
    unfold VUMeter.peakToPeakFadeStep
    split <;> omega
  · exact hf

/-- The fade-out branch never increases the fader. -/
theorem fadeIfElapsed_fader_le (st : VUMeter.State) (now : Nat) :
    (VUMeter.fadeIfElapsed st now).peakToPeakFader ≤ st.peakToPeakFader := by
  unfold VUMeter.fadeIfElapsed
  split
  · show (if st.peakToPeakFader > 0
      then st.peakToPeakFader - VUMeter.peakToPeakFadeStep
      else st.peakToPeakFader) ≤ st.peakToPeakFader
    unfold VUMeter.peakToPeakFadeStep
    split <;> omega
  · exact le_refl _

/-- One loop iteration keeps the fader non-negative, provided the sample is
within ADC range and a closing window has its min at most its max. -/
theorem loopStep_fader_nonneg (st : VUMeter.State) (now mic : Nat)
    (hf : 0 ≤ st.peakToPeakFader) (hmax : st.signalMax ≤ 1023)
    (hmic : mic ≤ 1023)
    (hwin : now - st.startSampleTimeMs > VUMeter.MIC_SAMPLE_WINDOW_MS →
      (VUMeter.observeMic st mic).signalMin ≤
        (VUMeter.observeMic st mic).signalMax) :
    0 ≤ (VUMeter.loopStep st now mic).peakToPeakFader := by
  unfold VUMeter.loopStep
  apply fadeIfElapsed_fader_nonneg
  apply closeWindow_fader_nonneg
  · rw [observeMic_peakToPeakFader]; exact hf
  · exact observeMic_signalMax_le st mic hmax hmic
  · rw [observeMic_startSampleTimeMs]; exact hwin

/-- One loop iteration keeps the running max within ADC range. -/
theorem loopStep_signalMax_le (st : VUMeter.State) (now mic : Nat)
    (hmax : st.signalMax ≤ 1023) (hmic : mic ≤ 1023) :
    (VUMeter.loopStep st now mic).signalMax ≤ 1023 := by
  unfold VUMeter.loopStep
  have hfade : ∀ (s : VUMeter.State) (t : Nat),
      (VUMeter.fadeIfElapsed s t).signalMax = s.signalMax := by
    intro s t
    unfold VUMeter.fadeIfElapsed
    split <;> rfl
  rw [hfade]
  have h3 := observeMic_signalMax_le st mic hmax hmic
  unfold VUMeter.closeWindowIfElapsed
  split
  · show (0 : Nat) ≤ 1023
    omega
  · exact h3

/-- An iteration on which the raise branch does not fire never increases the
fader. -/
theorem loopStep_fader_mono (st : VUMeter.State) (now mic : Nat)
    (hnr : VUMeter.faderRaised st now mic = false) :
    (VUMeter.loopStep st now mic).peakToPeakFader ≤ st.peakToPeakFader := by
  simp only [VUMeter.faderRaised, decide_eq_false_iff_not, not_and,
    not_lt] at hnr
  unfold VUMeter.loopStep
  have h1 := observeMic_startSampleTimeMs st mic
  have h2 := observeMic_peakToPeakFader st mic
  by_cases hc : now - st.startSampleTimeMs > VUMeter.MIC_SAMPLE_WINDOW_MS
  · have hng : ¬ intToUInt32 (VUMeter.observeMic st mic).peakToPeakFader <
        VUMeter.micPeakToPeak (VUMeter.observeMic st mic) := by
      rw [h2]
      exact not_lt.mpr (hnr hc)
    calc (VUMeter.fadeIfElapsed
            (VUMeter.closeWindowIfElapsed (VUMeter.observeMic st mic) now)
            now).peakToPeakFader
        ≤ (VUMeter.closeWindowIfElapsed (VUMeter.observeMic st mic)
            now).peakToPeakFader := fadeIfElapsed_fader_le _ _
      _ = st.peakToPeakFader := by
          rw [closeWindow_fader_of_not_lt _ _ hng, h2]
  · rw [closeWindow_of_not_elapsed _ _ (by rw [h1]; exact hc)]
    calc (VUMeter.fadeIfElapsed (VUMeter.observeMic st mic)
          now).peakToPeakFader
        ≤ (VUMeter.observeMic st mic).peakToPeakFader :=
          fadeIfElapsed_fader_le _ _
      _ = st.peakToPeakFader := h2

/-- Over a whole run whose inputs satisfy `goodInputs`, the fader stays
non-negative. -/
theorem run_fader_nonneg (ins : List (Nat × Nat)) :
    ∀ st : VUMeter.State, 0 ≤ st.peakToPeakFader → st.signalMax ≤ 1023 →
      VUMeter.goodInputs st ins →
      0 ≤ (VUMeter.run st ins).peakToPeakFader := by
  induction ins with
  | nil => intro st hf _ _; exact hf
  | cons p rest ih =>
      obtain ⟨now, mic⟩ := p
      intro st hf hmax hg
      have hg' : mic ≤ 1023 ∧
          (now - st.startSampleTimeMs > VUMeter.MIC_SAMPLE_WINDOW_MS →
            (VUMeter.observeMic st mic).signalMin ≤
              (VUMeter.observeMic st mic).signalMax) ∧
          VUMeter.goodInputs (VUMeter.loopStep st now mic) rest := hg
      exact ih _
        (loopStep_fader_nonneg st now mic hf hmax hg'.1 hg'.2.1)
        (loopStep_signalMax_le st now mic hmax hg'.1) hg'.2.2

/-! ## Claim theorems -/

/-- C3: when the ball crosses an X boundary (it was inside, and after the
position update the X test fires), the X speed flips exactly once at that
frame; the following frame brings the ball back to its previous inside
position, the X test does not fire there, and the X speed does not flip
again. -/
theorem c3_x_flip_once_per_crossing (b : BallBounce.Ball)
    (hin : ¬ BallBounce.xCollision b.xBall)
    (hcross : BallBounce.xCollision (b.xBall + b.xSpeed)) :
    (BallBounce.ballStep b).xSpeed = -b.xSpeed ∧
    ¬ BallBounce.xCollision
      ((BallBounce.ballStep b).xBall + (BallBounce.ballStep b).xSpeed) ∧
    (BallBounce.ballStep (BallBounce.ballStep b)).xSpeed =
      (BallBounce.ballStep b).xSpeed ∧
    (BallBounce.ballStep (BallBounce.ballStep b)).xBall = b.xBall := by
  have h0 : (BallBounce.ballStep b).xSpeed =
      if BallBounce.xCollision (b.xBall + b.xSpeed) then b.xSpeed * (-1)
      else b.xSpeed := rfl
  rw [if_pos hcross, mul_neg_one] at h0
  have h2 : (BallBounce.ballStep b).xBall = b.xBall + b.xSpeed := rfl
  have h3 : (BallBounce.ballStep b).xBall + (BallBounce.ballStep b).xSpeed =
      b.xBall := by rw [h0, h2]; ring
  have h4 : (BallBounce.ballStep (BallBounce.ballStep b)).xSpeed =
      if BallBounce.xCollision
          ((BallBounce.ballStep b).xBall + (BallBounce.ballStep b).xSpeed)
      then (BallBounce.ballStep b).xSpeed * (-1)
      else (BallBounce.ballStep b).xSpeed := rfl
  have h5 : (BallBounce.ballStep (BallBounce.ballStep b)).xBall =
      (BallBounce.ballStep b).xBall + (BallBounce.ballStep b).xSpeed := rfl
  rw [h3] at h4 h5
  rw [if_neg hin] at h4
  exact ⟨h0, h3 ▸ hin, h4, h5⟩

/-- C3 (witness): the ball at x = 7 moving with X speed −3 crosses the left
boundary, flips once, and is back inside with no second flip. -/
theorem c3_x_flip_once_per_crossing_witness :
    ¬ BallBounce.xCollision ((7 : Int)) ∧
    BallBounce.xCollision ((7 : Int) + (-3)) ∧
    ((BallBounce.ballStep ⟨7, 32, -3, 1⟩).xSpeed = -(-3) ∧
      ¬ BallBounce.xCollision
        ((BallBounce.ballStep ⟨7, 32, -3, 1⟩).xBall +
          (BallBounce.ballStep ⟨7, 32, -3, 1⟩).xSpeed) ∧
      (BallBounce.ballStep (BallBounce.ballStep ⟨7, 32, -3, 1⟩)).xSpeed =
        (BallBounce.ballStep ⟨7, 32, -3, 1⟩).xSpeed ∧
      (BallBounce.ballStep (BallBounce.ballStep ⟨7, 32, -3, 1⟩)).xBall = 7) :=
  ⟨by decide, by decide,
   c3_x_flip_once_per_crossing ⟨7, 32, -3, 1⟩ (by decide) (by decide)⟩

/-- C4 (counterexample): right after the sentinels are (re)set, observing the
single sample 5 leaves the running min (929) above the running max (5), so
"min ≤ max at every point within a window" fails. -/
theorem c4_sentinel_min_gt_max :
    ¬ ((VUMeter.observeMic VUMeter.initState 5).signalMin ≤
       (VUMeter.observeMic VUMeter.initState 5).signalMax) := by
  decide

/-- C4 (amended): at every point of a sampling window at which the running
min has been updated away from its sentinel (`signalMin < MAX_ANALOG_INPUT`),
the running min is at most the running max. -/
theorem c4_min_le_max_once_min_updated (samples : List Nat)
    (h : (List.foldl VUMeter.observeMic VUMeter.initState samples).signalMin <
      VUMeter.MAX_ANALOG_INPUT) :
    (List.foldl VUMeter.observeMic VUMeter.initState samples).signalMin ≤
      (List.foldl VUMeter.observeMic VUMeter.initState samples).signalMax :=
  foldl_observeMic_min_le_max samples VUMeter.initState (by decide) h

/-- C4 (witness): after the samples 5 then 3, the min (3) has left its
sentinel and is at most the max (5). -/
theorem c4_min_le_max_once_min_updated_witness :
    (List.foldl VUMeter.observeMic VUMeter.initState [5, 3]).signalMin <
      VUMeter.MAX_ANALOG_INPUT ∧
    (List.foldl VUMeter.observeMic VUMeter.initState [5, 3]).signalMin ≤
      (List.foldl VUMeter.observeMic VUMeter.initState [5, 3]).signalMax :=
  ⟨by decide, c4_min_le_max_once_min_updated [5, 3] (by decide)⟩

/-- C6: the X and Y speed magnitudes are invariant under any number of
frames, reflections included. -/
theorem c6_velocity_magnitude_invariant (b : BallBounce.Ball) (n : Nat) :
    (BallBounce.ballIterate b n).xSpeed.natAbs = b.xSpeed.natAbs ∧
    (BallBounce.ballIterate b n).ySpeed.natAbs = b.ySpeed.natAbs := by
  induction n generalizing b with
  | zero => exact ⟨rfl, rfl⟩
  | succ n ih =>
      have h := ih (BallBounce.ballStep b)
      exact ⟨h.1.trans (ballStep_xSpeed_natAbs b),
             h.2.trans (ballStep_ySpeed_natAbs b)⟩

/-- C1 (counterexample): with samples 2, 9, 4, 7 observed in one window from
freshly reset sentinels, the `peakToPeak` the code computes at window close
is not 7. -/
theorem c1_window_2947_not_seven :
    VUMeter.micPeakToPeak
      (List.foldl VUMeter.observeMic VUMeter.initState [2, 9, 4, 7]) ≠ 7 := by
  decide

/-- C1 (amended): with samples 2, 9, 4, 7 observed in one window from freshly
reset sentinels, the `peakToPeak` computed at window close equals 5 = 9 − 4
(the `else if` lets the first sample 2 raise only the running max, so the
window minimum ends at 4), and closing the window raises the fader to 5. -/
theorem c1_window_2947_peakToPeak_five :
    VUMeter.micPeakToPeak
      (List.foldl VUMeter.observeMic VUMeter.initState [2, 9, 4, 7]) = 5 ∧
    (VUMeter.closeWindowIfElapsed
      (List.foldl VUMeter.observeMic VUMeter.initState [2, 9, 4, 7])
      41).peakToPeakFader = 5 := by
  decide

/-- C2 (code bug): the fade-out test reads the sampling-window timer, not the
fade timer.  First conjunct: 100 ms after the fade timer was restarted (so
the claim demands a decrement) but only 5 ms into the sampling window, the
fader stays at 5.  Second conjunct: 5 ms after the fade timer was restarted
(so the claim forbids a decrement) but 20 ms into the sampling window, the
fader drops from 5 to 4. -/
theorem c2_fade_uses_sample_timer :
    ((VUMeter.loopStep ⟨95, 0, 929, 5, 0⟩ 100 0).peakToPeakFader = 5 ∧
      100 - (0 : Nat) > VUMeter.FADE_TIME_THRESHOLD_MS) ∧
    ((VUMeter.loopStep ⟨80, 0, 929, 5, 95⟩ 100 0).peakToPeakFader = 4 ∧
      100 - (95 : Nat) ≤ VUMeter.FADE_TIME_THRESHOLD_MS) := by
  decide

/-- C7: parsing the serial record `"1,0"` sets the brush type to `SQUARE`
(1) and the fill mode to `FILL` (0), whatever the prior state. -/
theorem c7_parse_one_comma_zero (st : Paint.State) :
    Paint.checkAndParseSerial st ("1,0".toList) =
      { curBrushType := Paint.SQUARE, curBrushFillMode := Paint.FILL } := by
  rfl

/-- C8: a received line containing no comma leaves the brush type and the
fill mode unchanged. -/
theorem c8_no_comma_state_unchanged (st : Paint.State) (s : List Char)
    (h : ',' ∉ s) : Paint.checkAndParseSerial st s = st := by
  unfold Paint.checkAndParseSerial
  rw [indexOf_eq_neg_one s ',' h]
  simp

/-- C8 (witness): the record `"abc"` has no comma and leaves the state
`(SQUARE, OUTLINE)` unchanged. -/
theorem c8_no_comma_state_unchanged_witness :
    (',' ∉ "abc".toList) ∧
    Paint.checkAndParseSerial ⟨Paint.SQUARE, Paint.OUTLINE⟩ "abc".toList =
      ⟨Paint.SQUARE, Paint.OUTLINE⟩ :=
  ⟨by decide,
   c8_no_comma_state_unchanged ⟨Paint.SQUARE, Paint.OUTLINE⟩ "abc".toList
     (by decide)⟩

/-- C9: every received line is clamped to `[0, 255]` before being written as
the analog output level, and the input `"300"` yields 255. -/
theorem c9_led_value_clamped :
    (∀ s : List Char,
      0 ≤ LedValue.ledValueOf s ∧ LedValue.ledValueOf s ≤ 255) ∧
    LedValue.ledValueOf ("300".toList) = 255 := by
  constructor
  · intro s
    unfold LedValue.ledValueOf LedValue.constrain
    constructor <;> split <;> try split
    all_goals omega
  · decide

/-- C5 (counterexample): one loop iteration from the setup state, sampling 5
once and closing the window 50 ms later, drives the fader to −924: the
running min is still at its sentinel 929, so the unsigned
`_signalMax - _signalMin` underflows and the fader assignment wraps
negative. -/
theorem c5_fader_negative_on_underflow :
    (VUMeter.loopStep VUMeter.initState 50 5).peakToPeakFader = -924 ∧
    (VUMeter.loopStep VUMeter.initState 50 5).peakToPeakFader < 0 := by
  decide

/-- C5 (amended): the fader is raised only by the peak-update branch — on any
iteration where that branch does not fire it does not increase — and over any
run whose samples are within ADC range and whose closing windows have their
running min at most their running max (no unsigned underflow), a fader
starting ≥ 0 stays ≥ 0. -/
theorem c5_fader_nonneg_and_mono (st : VUMeter.State)
    (ins : List (Nat × Nat)) (now mic : Nat)
    (hf : 0 ≤ st.peakToPeakFader) (hmax : st.signalMax ≤ 1023)
    (hg : VUMeter.goodInputs st ins)
    (hnr : VUMeter.faderRaised st now mic = false) :
    0 ≤ (VUMeter.run st ins).peakToPeakFader ∧
    (VUMeter.loopStep st now mic).peakToPeakFader ≤ st.peakToPeakFader :=
  ⟨run_fader_nonneg ins st hf hmax hg, loopStep_fader_mono st now mic hnr⟩

/-- C5 (witness): from the setup state, the run with the single iteration
(time 50 ms, sample 0) keeps the fader ≥ 0, and the no-raise iteration
(time 10 ms, sample 5) does not increase it. -/
theorem c5_fader_nonneg_and_mono_witness :
    VUMeter.goodInputs VUMeter.initState [(50, 0)] ∧
    VUMeter.faderRaised VUMeter.initState 10 5 = false ∧
    0 ≤ (VUMeter.run VUMeter.initState [(50, 0)]).peakToPeakFader ∧
    (VUMeter.loopStep VUMeter.initState 10 5).peakToPeakFader ≤
      VUMeter.initState.peakToPeakFader :=
  ⟨⟨by decide, by decide, trivial⟩, by decide,
   (c5_fader_nonneg_and_mono VUMeter.initState [(50, 0)] 10 5 (by decide)
     (by decide) ⟨by decide, by decide, trivial⟩ (by decide)).1,
   (c5_fader_nonneg_and_mono VUMeter.initState [(50, 0)] 10 5 (by decide)
     (by decide) ⟨by decide, by decide, trivial⟩ (by decide)).2⟩

/-- C10: the button handlers keep the brush type in
{CIRCLE, SQUARE, TRIANGLE} and the fill mode in {FILL, OUTLINE}, wrapping a
press on (TRIANGLE, OUTLINE) back to (CIRCLE, FILL); the serial parser does
no range validation, so the record `"5,0"` sets the brush type to 5, a value
outside the enum's named range. -/
theorem c10_button_range_serial_unchecked (st : Paint.State)
    (btn : Paint.ButtonState) (selVal modeVal : Int)
    (hb : st.curBrushType = Paint.CIRCLE ∨ st.curBrushType = Paint.SQUARE ∨
      st.curBrushType = Paint.TRIANGLE)
    (hm : st.curBrushFillMode = Paint.FILL ∨
      st.curBrushFillMode = Paint.OUTLINE) :
    (((Paint.readBrushButtons st btn selVal modeVal).1.curBrushType =
        Paint.CIRCLE ∨
      (Paint.readBrushButtons st btn selVal modeVal).1.curBrushType =
        Paint.SQUARE ∨
      (Paint.readBrushButtons st btn selVal modeVal).1.curBrushType =
        Paint.TRIANGLE) ∧
     ((Paint.readBrushButtons st btn selVal modeVal).1.curBrushFillMode =
        Paint.FILL ∨
      (Paint.readBrushButtons st btn selVal modeVal).1.curBrushFillMode =
        Paint.OUTLINE)) ∧
    (Paint.readBrushButtons ⟨Paint.TRIANGLE, Paint.OUTLINE⟩
        ⟨Paint.HIGH, Paint.HIGH⟩ Paint.LOW Paint.LOW).1 =
      ⟨Paint.CIRCLE, Paint.FILL⟩ ∧
    (Paint.checkAndParseSerial st ("5,0".toList)).curBrushType = 5 ∧
    ¬ ((5 : Int) = Paint.CIRCLE ∨ (5 : Int) = Paint.SQUARE ∨
       (5 : Int) = Paint.TRIANGLE) := by
  refine ⟨⟨?_, ?_⟩, by decide, by rfl, by decide⟩
  · have h : (Paint.readBrushButtons st btn selVal modeVal).1.curBrushType =
        if selVal = Paint.LOW ∧
            selVal ≠ btn.lastShapeSelectionButtonVal then
          (if st.curBrushType + 1 ≥ Paint.NUM_BRUSH_TYPES then Paint.CIRCLE
            else st.curBrushType + 1)
        else st.curBrushType := rfl
    rw [h]
    split
    · rcases hb with h1 | h1 | h1 <;> rw [h1] <;> decide
    · exact hb
  · have h : (Paint.readBrushButtons st btn selVal
          modeVal).1.curBrushFillMode =
        if modeVal = Paint.LOW ∧ modeVal ≠ btn.lastDrawModeButtonVal then
          (if st.curBrushFillMode + 1 ≥ Paint.NUM_FILL_MODES then Paint.FILL
            else st.curBrushFillMode + 1)
        else st.curBrushFillMode := rfl
    rw [h]
    split
    · rcases hm with h1 | h1 <;> rw [h1] <;> decide
    · exact hm

/-- C10 (witness): from (CIRCLE, FILL) with both buttons freshly pressed, the
brush type and fill mode are still within their named ranges. -/
theorem c10_button_range_serial_unchecked_witness :
    (Paint.State.mk 0 0).curBrushType = Paint.CIRCLE ∧
    (Paint.State.mk 0 0).curBrushFillMode = Paint.FILL ∧
    ((Paint.readBrushButtons ⟨0, 0⟩ ⟨1, 1⟩ 0 0).1.curBrushType =
        Paint.CIRCLE ∨
      (Paint.readBrushButtons ⟨0, 0⟩ ⟨1, 1⟩ 0 0).1.curBrushType =
        Paint.SQUARE ∨
      (Paint.readBrushButtons ⟨0, 0⟩ ⟨1, 1⟩ 0 0).1.curBrushType =
        Paint.TRIANGLE) ∧
    ((Paint.readBrushButtons ⟨0, 0⟩ ⟨1, 1⟩ 0 0).1.curBrushFillMode =
        Paint.FILL ∨
      (Paint.readBrushButtons ⟨0, 0⟩ ⟨1, 1⟩ 0 0).1.curBrushFillMode =
        Paint.OUTLINE) :=
  ⟨rfl, rfl,
   ((c10_button_range_serial_unchecked ⟨0, 0⟩ ⟨1, 1⟩ 0 0 (Or.inl rfl)
     (Or.inl rfl)).1).1,
   ((c10_button_range_serial_unchecked ⟨0, 0⟩ ⟨1, 1⟩ 0 0 (Or.inl rfl)
     (Or.inl rfl)).1).2⟩

end Arduino
